import Mathlib

/-!
Shallow embedding of the longrunning-service repository.

The embedding follows the Go sources:
  * `internal/repo` (repo.go and the operation model file): the persistent
    operation record, its projection to the wire form (`ToProto`), the
    auth-token / terminal-state guard (`CanUpdate`) and the repository
    operations Register / Get / Query / Update / Complete / MarkAsLost.
  * `internal/manager` (manager.go): the liveness sweep `checkOperations`.

Modelling conventions:
  * Instants (`time.Time`) are `Nat`; durations (`time.Duration`) are `Int`
    nanoseconds.  `time.Now()` becomes an explicit `now : Nat` argument.
  * The Mongo collection is a `List Operation`; `FindOne` / `FindOneAndUpdate`
    act on the first record with a matching `_id`.
  * `session.WithTransaction` (the `run` helper of repo.go) is modelled by
    returning the original store whenever the transaction body fails, so a
    failed call leaves storage unchanged.  `MarkAsLost` is the exception: its
    body performs the write on the outer context, outside the session, so its
    write persists even when the subsequent projection fails.
  * Randomness (the auth token from `crypto/rand` and the fresh ObjectID) is
    passed in as explicit arguments.
  * `structpb.Value.AsInterface` and `structpb.NewValue` translate between the
    wire value domain and the Go dynamic-value domain.  On the image of
    `AsInterface` (null / bool / float64 / string / list / string-keyed map)
    `NewValue` always succeeds and reproduces the value, so the embedding uses
    a single recursive type `StructValue` for both domains and the two
    conversions are the identity on it.
-/

namespace LongRunning

/-- Operation states, mirroring `longrunningv1.OperationState`. -/
inductive OperationState where
| UNSPECIFIED
| PENDING
| RUNNING
| COMPLETE
| LOST
deriving DecidableEq, Repr

/-- Recursive dynamic values carried in `parameters`
(`structpb.Value` on the wire, `any` at rest; see the file header). -/
inductive StructValue where
| nullv
| boolv (b : Bool)
| numv (n : Int)
| strv (s : String)
| listv (elems : List StructValue)
| structv (fields : List (String × StructValue))
deriving Repr

/-- `structpb.Value.AsInterface`: identity on the common value domain. -/
def valueAsInterface (v : StructValue) : StructValue := v

/-- `structpb.NewValue`: on values produced by `AsInterface` it always
succeeds and reproduces the value. -/
def structpbNewValue (v : StructValue) : StructValue := v

/-- `anypb.Any`: an opaque serialized message (type URL + payload bytes). -/
structure AnyValue where
TypeUrl : String
Value : String
deriving DecidableEq, Repr

/-- The stored `Success` result variant (repo model). -/
structure Success where
Message : String
Result : Option AnyValue
deriving DecidableEq, Repr

/-- The stored `Error` result variant (repo model). -/
structure Error where
Message : String
Details : Option AnyValue
deriving DecidableEq, Repr

/-- The persisted operation record, mirroring `repo.Operation`. -/
structure Operation where
ID : String
CreateTime : Nat
LastUpdate : Nat
Owner : String
Creator : String
State : OperationState
Ttl : Int
GracePeriod : Int
Description : String
Parameters : List (String × StructValue)
Annotations : List (String × String)
Kind : String
Success : Option Success
Error : Option Error
AuthToken : String
PercentDone : Int
StatusMessage : String

/-- `longrunningv1.OperationSuccess` (wire form). -/
structure OperationSuccess where
Message : String
Result : Option AnyValue
deriving DecidableEq, Repr

/-- `longrunningv1.OperationError` (wire form). -/
structure OperationError where
Message : String
ErrorDetails : Option AnyValue
deriving DecidableEq, Repr

/-- The oneof result of a wire-form operation snapshot. -/
inductive OperationResult where
| success (v : OperationSuccess)
| error (v : OperationError)

/-- The wire-form snapshot `longrunningv1.Operation` as populated by
`Operation.ToProto`.  Note: the wire form has no auth-token field. -/
structure OperationProto where
UniqueId : String
CreateTime : Nat
Owner : String
Creator : String
State : OperationState
Ttl : Int
GracePeriod : Int
Description : String
LastUpdate : Nat
Annotations : List (String × String)
Kind : String
StatusMessage : String
PercentDone : Int
Parameters : List (String × StructValue)
Result : Option OperationResult

/-- Error kinds surfaced by the repository (sentinel errors and
`fmt.Errorf` messages of repo.go / the operation model). -/
inductive RepoError where
| invalidId
| notFound
| invalidAuthToken
| operationCompleted
| invalidArgument (msg : String)
| internal (msg : String)
deriving DecidableEq, Repr

/-- Hex digit test used by `primitive.ObjectIDFromHex` (hex.Decode accepts
both cases). -/
def isHexDigit (c : Char) : Bool :=
  c.isDigit || (97 ≤ c.toNat && c.toNat ≤ 102) || (65 ≤ c.toNat && c.toNat ≤ 70)

/-- `primitive.ObjectIDFromHex` succeeds exactly on 24-character hex strings. -/
def isValidObjectIdHex (s : String) : Bool :=
  s.length == 24 && s.data.all isHexDigit

/-- `int32(x)` conversion applied by `ToProto` to `PercentDone`. -/
def int32ofInt (x : Int) : Int :=
  (x + 2 ^ 31) % 2 ^ 32 - 2 ^ 31

/-- `Operation.ToProto`: projection of a stored record to the wire form.
Fails (with the consistency error of the Go code) when both result
variants are populated.  The parameter conversion through
`structpb.NewValue` cannot fail on this value domain. -/
def Operation.ToProto (op : Operation) : Except RepoError OperationProto :=
  let pbop : OperationProto :=
    { UniqueId := op.ID
      CreateTime := op.CreateTime
      Owner := op.Owner
      Creator := op.Creator
      State := op.State
      Ttl := op.Ttl
      GracePeriod := op.GracePeriod
      Description := op.Description
      LastUpdate := op.LastUpdate
      Annotations := op.Annotations
      Kind := op.Kind
      StatusMessage := op.StatusMessage
      PercentDone := int32ofInt op.PercentDone
      Parameters :=
        if op.Parameters.isEmpty then []
        else op.Parameters.map (fun kv => (kv.1, structpbNewValue kv.2))
      Result := none }
  match op.Success, op.Error with
  | some _, some _ => .error (.internal "operation has success and error value")
  | some s, none =>
      .ok { pbop with Result := some (.success { Message := s.Message, Result := s.Result }) }
  | none, some e =>
      .ok { pbop with Result := some (.error { Message := e.Message, ErrorDetails := e.Details }) }
  | none, none => .ok pbop

/-- `Operation.CanUpdate`: the auth-token check runs first, then the
terminal-state check, which rejects only COMPLETE. -/
def Operation.CanUpdate (op : Operation) (authToken : String) : Option RepoError :=
  if op.AuthToken ≠ authToken then some .invalidAuthToken
  else if op.State = .COMPLETE then some .operationCompleted
  else none

/-- The Mongo collection `long-running-operations`. -/
abbrev Store := List Operation

/-- `FindOne` on `_id`: the first record with a matching id. -/
def findOperation (store : Store) (id : String) : Option Operation :=
  match store with
  | [] => none
  | o :: rest => if o.ID = id then some o else findOperation rest id

/-- Replace the first record with the given id (the write half of
`FindOneAndUpdate`). -/
def storeUpdateFirst (store : Store) (id : String) (op : Operation) : Store :=
  match store with
  | [] => []
  | o :: rest => if o.ID = id then op :: rest else o :: storeUpdateFirst rest id op

/-- The `bson.M` update document passed to `$set` by the three write
operations: `lastUpdate` is always present, the remaining keys are
optional. -/
structure UpdateDoc where
lastUpdate : Nat
state : Option OperationState
annotations : Option (List (String × String))
success : Option Success
error : Option Error

/-- An update document carrying only `lastUpdate`. -/
def UpdateDoc.base (now : Nat) : UpdateDoc :=
  { lastUpdate := now, state := none, annotations := none, success := none, error := none }

/-- Apply a `$set` update document to a record: keys present in the
document overwrite the corresponding fields, everything else is kept. -/
def applyUpdateDoc (op : Operation) (doc : UpdateDoc) : Operation :=
  { op with
      LastUpdate := doc.lastUpdate
      State := doc.state.getD op.State
      Annotations := doc.annotations.getD op.Annotations
      Success := match doc.success with | some s => some s | none => op.Success
      Error := match doc.error with | some e => some e | none => op.Error }

/-- `Repo.findAndUpdateOperation`: find the record, apply the `$set`
document, return the post-update record (`ReturnDocument(After)`). -/
def findAndUpdateOperation (store : Store) (id : String) (doc : UpdateDoc) :
    Except RepoError (Store × Operation) :=
  match findOperation store id with
  | none => .error .notFound
  | some op =>
      let op' := applyUpdateDoc op doc
      .ok (storeUpdateFirst store id op', op')

/-- `Repo.getAndValidateUpdate`: load the record and run `CanUpdate`. -/
def getAndValidateUpdate (store : Store) (id : String) (authToken : String) :
    Except RepoError Operation :=
  match findOperation store id with
  | none => .error .notFound
  | some op =>
      match op.CanUpdate authToken with
      | some e => .error e
      | none => .ok op

/-- `longrunningv1.RegisterOperationRequest`.  The `durationpb` fields are
`Option Int`: `none` models a nil or out-of-range duration
(`IsValid() == false`). -/
structure RegisterOperationRequest where
Owner : String
Creator : String
InitialState : OperationState
Ttl : Option Int
GracePeriod : Option Int
Description : String
Kind : String
Parameters : List (String × StructValue)
Annotations : List (String × String)

/-- `operationFromRegistrationRequest`: defaults TTL and grace period to
5 minutes when the request durations are unset, converts the parameters
through `AsInterface`, stamps `createTime = lastUpdate = now`.  The ID
and auth token are filled in later by `RegisterOperation`. -/
def operationFromRegistrationRequest (req : RegisterOperationRequest) (now : Nat) : Operation :=
  let ttl : Int := match req.Ttl with | some d => d | none => 300000000000
  let grace : Int := match req.GracePeriod with | some d => d | none => 300000000000
  { ID := ""
    CreateTime := now
    LastUpdate := now
    Owner := req.Owner
    Creator := req.Creator
    State := req.InitialState
    Ttl := ttl
    GracePeriod := grace
    Description := req.Description
    Parameters := req.Parameters.map (fun kv => (kv.1, valueAsInterface kv.2))
    Annotations := req.Annotations
    Kind := req.Kind
    Success := none
    Error := none
    AuthToken := ""
    PercentDone := 0
    StatusMessage := "" }

/-- The record inserted by `Repo.RegisterOperation`: the request model
with the fresh ObjectID and the generated auth token filled in, and an
UNSPECIFIED initial state coerced to PENDING. -/
def registeredModel (req : RegisterOperationRequest) (now : Nat)
    (authCode : String) (newId : String) : Operation :=
  let model := operationFromRegistrationRequest req now
  let model := { model with ID := newId, AuthToken := authCode }
  if model.State = .UNSPECIFIED then { model with State := .PENDING } else model

/-- `Repo.RegisterOperation`: build the record from the request, assign a
fresh ObjectID and the random auth token (both passed in explicitly),
coerce UNSPECIFIED to PENDING, insert.  `InsertOne` fails on a duplicate
`_id`.  Returns (hex id, auth token). -/
def RegisterOperation (store : Store) (req : RegisterOperationRequest) (now : Nat)
    (authCode : String) (newId : String) : Store × Except RepoError (String × String) :=
  let model := registeredModel req now authCode newId
  if (findOperation store newId).isSome then
    (store, .error (.internal "duplicate key"))
  else
    (store ++ [model], .ok (newId, authCode))

/-- `longrunningv1.GetOperationRequest`. -/
structure GetOperationRequest where
UniqueId : String

/-- `Repo.GetOperation`: parse the id, `FindOne`, decode, project. -/
def GetOperation (store : Store) (req : GetOperationRequest) :
    Except RepoError OperationProto :=
  if isValidObjectIdHex req.UniqueId then
    match findOperation store req.UniqueId with
    | none => .error .notFound
    | some op => op.ToProto
  else .error .invalidId

/-- `longrunningv1.UpdateOperationRequest`.  `UpdateMask` is the flattened
`GetUpdateMask().GetPaths()` (nil mask becomes the empty list). -/
structure UpdateOperationRequest where
UniqueId : String
AuthToken : String
Running : Bool
Annotations : List (String × String)
UpdateMask : List String

/-- The field-mask loop of `Repo.UpdateOperation`: process the paths in
order; `running` sets the state from the request's `Running` flag,
`annotations` replaces the annotations wholesale, anything else aborts
with the invalid-argument error. -/
def buildUpdateDoc (upd : UpdateOperationRequest) (paths : List String) (doc : UpdateDoc) :
    Except RepoError UpdateDoc :=
  match paths with
  | [] => .ok doc
  | p :: rest =>
      if p = "running" then
        let s : OperationState := if upd.Running then .RUNNING else .PENDING
        buildUpdateDoc upd rest { doc with state := some s }
      else if p = "annotations" then
        buildUpdateDoc upd rest { doc with annotations := some upd.Annotations }
      else
        .error (.invalidArgument "invalid field in update mask")

/-- `Repo.UpdateOperation`: parse the id, build the update document from
the mask (defaulting to `running, annotations` when the mask is empty),
then inside the transaction validate (token, non-COMPLETE) and apply the
update.  Any failure leaves the store unchanged (transaction rollback). -/
def UpdateOperation (store : Store) (upd : UpdateOperationRequest) (now : Nat) :
    Store × Except RepoError OperationProto :=
  if isValidObjectIdHex upd.UniqueId then
    let paths := if upd.UpdateMask.length > 0 then upd.UpdateMask else ["running", "annotations"]
    match buildUpdateDoc upd paths (UpdateDoc.base now) with
    | .error e => (store, .error e)
    | .ok doc =>
        match getAndValidateUpdate store upd.UniqueId upd.AuthToken with
        | .error e => (store, .error e)
        | .ok _ =>
            match findAndUpdateOperation store upd.UniqueId doc with
            | .error e => (store, .error e)
            | .ok (store', op') =>
                match op'.ToProto with
                | .error e => (store, .error e)
                | .ok pb => (store', .ok pb)
  else (store, .error .invalidId)

/-- The oneof result of `longrunningv1.CompleteOperationRequest`. -/
inductive CompleteResult where
| success (v : OperationSuccess)
| error (v : OperationError)

/-- `longrunningv1.CompleteOperationRequest`. -/
structure CompleteOperationRequest where
UniqueId : String
AuthToken : String
Result : Option CompleteResult

/-- `Repo.CompleteOperation`: parse the id, build an update document
setting state COMPLETE, `lastUpdate` and the requested result variant
(missing variant fails with the invalid-argument error before the
transaction), then inside the transaction validate and apply.  Any
failure leaves the store unchanged (transaction rollback). -/
def CompleteOperation (store : Store) (upd : CompleteOperationRequest) (now : Nat) :
    Store × Except RepoError OperationProto :=
  if isValidObjectIdHex upd.UniqueId then
    let base := { UpdateDoc.base now with state := some .COMPLETE }
    match upd.Result with
    | none => (store, .error (.invalidArgument "missing result value"))
    | some r =>
        let doc :=
          match r with
          | .error e => { base with error := some { Message := e.Message, Details := e.ErrorDetails } }
          | .success s => { base with success := some { Message := s.Message, Result := s.Result } }
        match getAndValidateUpdate store upd.UniqueId upd.AuthToken with
        | .error e => (store, .error e)
        | .ok _ =>
            match findAndUpdateOperation store upd.UniqueId doc with
            | .error e => (store, .error e)
            | .ok (store', op') =>
                match op'.ToProto with
                | .error e => (store, .error e)
                | .ok pb => (store', .ok pb)
  else (store, .error .invalidId)

/-- `Repo.MarkAsLost`: parse the id and unconditionally `$set` state LOST
and a fresh `lastUpdate` — there is no auth-token and no terminal-state
check.  The write runs on the outer context (outside the session), so it
persists even when the projection of the result fails. -/
def MarkAsLost (store : Store) (id : String) (now : Nat) :
    Store × Except RepoError OperationProto :=
  if isValidObjectIdHex id then
    let doc := { UpdateDoc.base now with state := some .LOST }
    match findAndUpdateOperation store id doc with
    | .error e => (store, .error e)
    | .ok (store', op') =>
        match op'.ToProto with
        | .error e => (store', .error e)
        | .ok pb => (store', .ok pb)
  else (store, .error .invalidId)

/-- `longrunningv1.QueryOperationsRequest`: empty strings and UNSPECIFIED
mean "no filter". -/
structure QueryOperationsRequest where
Creator : String
Owner : String
State : OperationState
Kind : String

/-- The conjunctive filter built by `Repo.QueryOperations`. -/
def matchesQuery (q : QueryOperationsRequest) (op : Operation) : Bool :=
  (q.Creator == "" || op.Creator == q.Creator)
  && (q.Owner == "" || op.Owner == q.Owner)
  && (q.State == .UNSPECIFIED || op.State == q.State)
  && (q.Kind == "" || op.Kind == q.Kind)

/-- Insertion into a list sorted by `createTime` descending (the
`createTime: -1` sort option of `Repo.find`). -/
def insertByCreateTimeDesc (op : Operation) : List Operation → List Operation
  | [] => [op]
  | o :: rest =>
      if o.CreateTime < op.CreateTime then op :: o :: rest
      else o :: insertByCreateTimeDesc op rest

/-- Sort by `createTime` descending. -/
def sortByCreateTimeDesc : List Operation → List Operation
  | [] => []
  | o :: rest => insertByCreateTimeDesc o (sortByCreateTimeDesc rest)

/-- `Repo.find`: filter, sort by `createTime` descending, project each
record; projection failures are collected (`multierror`) while the
successfully projected records are still returned. -/
def findOps (store : Store) (filter : Operation → Bool) :
    List OperationProto × List RepoError :=
  let models := sortByCreateTimeDesc (store.filter filter)
  models.foldr
    (fun m acc =>
      match m.ToProto with
      | .ok pb => (pb :: acc.1, acc.2)
      | .error e => (acc.1, e :: acc.2))
    ([], [])

/-- `Repo.QueryOperations`. -/
def QueryOperations (store : Store) (q : QueryOperationsRequest) :
    List OperationProto × List RepoError :=
  findOps store (matchesQuery q)

/-- `Repo.GetActiveOperations`: shorthand for the state-RUNNING filter. -/
def GetActiveOperations (store : Store) : List OperationProto × List RepoError :=
  findOps store (fun op => op.State == .RUNNING)

/-- One action of a sweep: the id handed to `MarkAsLost` and whether the
call succeeded (only then are the lost callbacks notified). -/
structure SweepAction where
id : String
marked : Bool
deriving DecidableEq, Repr

/-- The per-operation loop body of `Manager.checkOperations`: for each
operation compare `sinceFunc(lastUpdate)` against `ttl + gracePeriod`;
when expired call `MarkAsLost` and continue with the remaining
operations whether or not the call failed (the error is only logged). -/
def sweepLoop (ops : List OperationProto) (since : Nat → Int)
    (mark : String → Except RepoError OperationProto) : List SweepAction :=
  match ops with
  | [] => []
  | op :: rest =>
      if op.Ttl + op.GracePeriod ≤ since op.LastUpdate then
        { id := op.UniqueId,
          marked := match mark op.UniqueId with | .ok _ => true | .error _ => false }
          :: sweepLoop rest since mark
      else sweepLoop rest since mark

/-- `Manager.checkOperations`: fetch the active operations (an error is
logged and the sweep returns), then run the loop.  The repository is the
`manager.Repository` interface, modelled as the two oracles `active` and
`mark`. -/
def checkOperations (active : Except RepoError (List OperationProto)) (since : Nat → Int)
    (mark : String → Except RepoError OperationProto) : List SweepAction :=
  match active with
  | .error _ => []
  | .ok ops => sweepLoop ops since mark

/-- `Service.RegisterOperation`: register through the repository, read the
fresh record back, and answer with the snapshot and the auth token (the
only place the token is ever returned). -/
def ServiceRegisterOperation (store : Store) (req : RegisterOperationRequest) (now : Nat)
    (authCode : String) (newId : String) :
    Store × Except RepoError (OperationProto × String) :=
  let reg := RegisterOperation store req now authCode newId
  match reg.2 with
  | .error e => (reg.1, .error e)
  | .ok (id, code) =>
      match GetOperation reg.1 { UniqueId := id } with
      | .error e => (reg.1, .error e)
      | .ok op => (reg.1, .ok (op, code))

/-- Replace a record's auth token (used to state that snapshots carry no
information about the token). -/
def withAuthToken (op : Operation) (t : String) : Operation :=
  { op with AuthToken := t }

/-! ### Concrete fixtures used by counterexamples and witnesses -/

/-- A well-formed hex ObjectID. -/
def idA : String := "aaaaaaaaaaaaaaaaaaaaaaaa"

/-- A second well-formed hex ObjectID. -/
def idB : String := "bbbbbbbbbbbbbbbbbbbbbbbb"

/-- A stored record in state LOST. -/
def opLost : Operation :=
  { ID := idA, CreateTime := 10, LastUpdate := 20, Owner := "o", Creator := "c",
    State := .LOST, Ttl := 100, GracePeriod := 5, Description := "d",
    Parameters := [], Annotations := [("a", "b")], Kind := "k",
    Success := none, Error := none, AuthToken := "tok", PercentDone := 0, StatusMessage := "" }

/-- A stored record in state COMPLETE carrying a success result. -/
def opComplete : Operation :=
  { opLost with State := .COMPLETE, Success := some { Message := "ok", Result := none } }

/-- A stored record in state RUNNING. -/
def opRunning : Operation :=
  { opLost with State := .RUNNING }

/-! ### Helper lemmas -/

/-- The ids collected by one sweep are exactly the expired ones, for any
behaviour of the MarkAsLost oracle. -/
theorem sweepLoop_ids (since : Nat → Int) (mark : String → Except RepoError OperationProto) :
    ∀ ops : List OperationProto,
      (sweepLoop ops since mark).map SweepAction.id
        = (ops.filter fun op => decide (op.Ttl + op.GracePeriod ≤ since op.LastUpdate)).map
            OperationProto.UniqueId := by
  intro ops
  induction ops with
  | nil => rfl
  | cons op rest ih =>
      by_cases h : op.Ttl + op.GracePeriod ≤ since op.LastUpdate
      · simp only [sweepLoop, if_pos h, List.map_cons, List.filter_cons,
          decide_eq_true h, if_true, ih]
      · simp only [sweepLoop, if_neg h, List.filter_cons,
          decide_eq_false h, Bool.false_eq_true, if_false, ih]

/-- A mask whose entries are all known processes without error. -/
theorem buildUpdateDoc_ok (upd : UpdateOperationRequest) :
    ∀ (paths : List String) (doc : UpdateDoc),
      (∀ p ∈ paths, p = "running" ∨ p = "annotations") →
      ∃ d, buildUpdateDoc upd paths doc = .ok d := by
  intro paths
  induction paths with
  | nil => exact fun doc _ => ⟨doc, rfl⟩
  | cons p rest ih =>
      intro doc hmem
      rcases hmem p (List.mem_cons_self p rest) with hp | hp
      · have := ih { doc with state := some (if upd.Running then .RUNNING else .PENDING) }
          (fun q hq => hmem q (List.mem_cons_of_mem p hq))
        simpa only [buildUpdateDoc, hp, if_pos] using this
      · have := ih { doc with annotations := some upd.Annotations }
          (fun q hq => hmem q (List.mem_cons_of_mem p hq))
        by_cases hrun : p = "running"
        · simpa only [buildUpdateDoc, hrun, if_pos] using
            ih { doc with state := some (if upd.Running then .RUNNING else .PENDING) }
              (fun q hq => hmem q (List.mem_cons_of_mem p hq))
        · simpa only [buildUpdateDoc, hrun, hp, if_neg, if_pos] using this

/-- A mask containing an unknown entry always fails with the
invalid-argument error, whatever else the mask contains. -/
theorem buildUpdateDoc_err (upd : UpdateOperationRequest) :
    ∀ (paths : List String) (doc : UpdateDoc) (p : String),
      p ∈ paths → p ≠ "running" → p ≠ "annotations" →
      buildUpdateDoc upd paths doc = .error (.invalidArgument "invalid field in update mask") := by
  intro paths
  induction paths with
  | nil => intro doc p hp; cases hp
  | cons q rest ih =>
      intro doc p hp hr ha
      by_cases hqr : q = "running"
      · have hpr : p ∈ rest := by
          rcases List.mem_cons.mp hp with h | h
          · exact absurd (h.trans hqr) hr
          · exact h
        simpa only [buildUpdateDoc, hqr, if_pos] using
          ih { doc with state := some (if upd.Running then .RUNNING else .PENDING) } p hpr hr ha
      · by_cases hqa : q = "annotations"
        · have hpr : p ∈ rest := by
            rcases List.mem_cons.mp hp with h | h
            · exact absurd (h.trans hqa) ha
            · exact h
          simpa only [buildUpdateDoc, hqr, hqa, if_neg, if_pos] using
            ih { doc with annotations := some upd.Annotations } p hpr hr ha
        · simp only [buildUpdateDoc, hqr, hqa, if_neg, if_false]

/-- A load-and-validate with a token that does not match the stored one
fails with the invalid-auth-token error, whatever the stored state. -/
theorem getAndValidateUpdate_wrongToken (store : Store) (id tok : String) (op : Operation)
    (hfind : findOperation store id = some op) (htok : tok ≠ op.AuthToken) :
    getAndValidateUpdate store id tok = .error .invalidAuthToken := by
  unfold getAndValidateUpdate
  rw [hfind]
  have : op.AuthToken ≠ tok := fun h => htok h.symm
  simp only [Operation.CanUpdate, if_pos this]

/-- UpdateOperation with a wrong token and a valid mask fails with the
invalid-auth-token error and leaves the store unchanged. -/
theorem UpdateOperation_wrongToken (store : Store) (upd : UpdateOperationRequest) (now : Nat)
    (op : Operation) (hvalid : isValidObjectIdHex upd.UniqueId = true)
    (hfind : findOperation store upd.UniqueId = some op)
    (hmask : ∀ p ∈ upd.UpdateMask, p = "running" ∨ p = "annotations")
    (htok : upd.AuthToken ≠ op.AuthToken) :
    UpdateOperation store upd now = (store, .error .invalidAuthToken) := by
  have hval := getAndValidateUpdate_wrongToken store upd.UniqueId upd.AuthToken op hfind htok
  unfold UpdateOperation
  rw [hvalid]
  simp only [if_true]
  have hpaths : ∀ p ∈ (if upd.UpdateMask.length > 0 then upd.UpdateMask
      else ["running", "annotations"]), p = "running" ∨ p = "annotations" := by
    by_cases hm : upd.UpdateMask.length > 0
    · simpa only [if_pos hm] using hmask
    · rw [if_neg hm]
      intro p hp
      rcases List.mem_cons.mp hp with h | h
      · exact Or.inl h
      · exact Or.inr (List.mem_singleton.mp h)
  obtain ⟨d, hd⟩ := buildUpdateDoc_ok upd _ (UpdateDoc.base now) hpaths
  rw [hd, hval]

/-- CompleteOperation with a wrong token and a present result variant
fails with the invalid-auth-token error and leaves the store unchanged. -/
theorem CompleteOperation_wrongToken (store : Store) (upd : CompleteOperationRequest) (now : Nat)
    (op : Operation) (r : CompleteResult) (hvalid : isValidObjectIdHex upd.UniqueId = true)
    (hfind : findOperation store upd.UniqueId = some op)
    (hres : upd.Result = some r)
    (htok : upd.AuthToken ≠ op.AuthToken) :
    CompleteOperation store upd now = (store, .error .invalidAuthToken) := by
  have hval := getAndValidateUpdate_wrongToken store upd.UniqueId upd.AuthToken op hfind htok
  unfold CompleteOperation
  rw [hvalid]
  simp only [if_true]
  rw [hres]
  cases r <;> rw [hval]

/-- The store component of a wrong-token UpdateOperation is always the
input store, whatever the mask and id look like. -/
theorem UpdateOperation_wrongToken_frame (store : Store) (upd : UpdateOperationRequest)
    (now : Nat) (op : Operation)
    (hfind : findOperation store upd.UniqueId = some op)
    (htok : upd.AuthToken ≠ op.AuthToken) :
    (UpdateOperation store upd now).1 = store := by
  have hval := getAndValidateUpdate_wrongToken store upd.UniqueId upd.AuthToken op hfind htok
  unfold UpdateOperation
  by_cases hv : isValidObjectIdHex upd.UniqueId
  · rw [hv]
    simp only [if_true]
    rcases h : buildUpdateDoc upd (if upd.UpdateMask.length > 0 then upd.UpdateMask
        else ["running", "annotations"]) (UpdateDoc.base now) with e | d
    · rfl
    · rw [hval]
  · simp only [Bool.not_eq_true] at hv
    rw [hv]
    simp only [Bool.false_eq_true, if_false]

/-- The store component of a wrong-token CompleteOperation is always the
input store, whether or not a result variant is present. -/
theorem CompleteOperation_wrongToken_frame (store : Store) (upd : CompleteOperationRequest)
    (now : Nat) (op : Operation)
    (hfind : findOperation store upd.UniqueId = some op)
    (htok : upd.AuthToken ≠ op.AuthToken) :
    (CompleteOperation store upd now).1 = store := by
  have hval := getAndValidateUpdate_wrongToken store upd.UniqueId upd.AuthToken op hfind htok
  unfold CompleteOperation
  by_cases hv : isValidObjectIdHex upd.UniqueId
  · rw [hv]
    simp only [if_true]
    rcases h : upd.Result with _ | r
    · rfl
    · cases r <;> rw [hval]
  · simp only [Bool.not_eq_true] at hv
    rw [hv]
    simp only [Bool.false_eq_true, if_false]

/-! ### Claims -/

/-- C1: the claim says that LOST is terminal, but the code does not guard
it: an UpdateOperation on a record in state LOST, carrying the correct
auth token, succeeds and moves the record back to RUNNING instead of
failing with operation-completed. -/
theorem c1_lost_record_accepts_update :
    ((UpdateOperation [opLost]
        { UniqueId := idA, AuthToken := "tok", Running := true,
          Annotations := [], UpdateMask := ["running"] } 99).2).map OperationProto.State
      = .ok .RUNNING
    ∧ ((UpdateOperation [opLost]
        { UniqueId := idA, AuthToken := "tok", Running := true,
          Annotations := [], UpdateMask := ["running"] } 99).1).map Operation.State
      = [.RUNNING]
    ∧ opLost.State = .LOST := by
  exact ⟨rfl, rfl, rfl⟩

/-- C3: on a sweep, MarkAsLost is called exactly on the active operations
whose elapsed time since `lastUpdate` reaches `ttl + gracePeriod`; this
list does not depend on the outcome of the individual MarkAsLost calls
(a failing call is only logged and the loop continues), and an error
from GetActiveOperations ends the sweep without processing anything. -/
theorem c3_sweep_decision (ops : List OperationProto) (since : Nat → Int)
    (mark mark' : String → Except RepoError OperationProto) (e : RepoError) :
    (checkOperations (.ok ops) since mark).map SweepAction.id
      = (ops.filter fun op => decide (op.Ttl + op.GracePeriod ≤ since op.LastUpdate)).map
          OperationProto.UniqueId
    ∧ (checkOperations (.ok ops) since mark).map SweepAction.id
      = (checkOperations (.ok ops) since mark').map SweepAction.id
    ∧ checkOperations (.error e) since mark = [] := by
  refine ⟨sweepLoop_ids since mark ops, ?_, rfl⟩
  rw [show checkOperations (.ok ops) since mark = sweepLoop ops since mark from rfl,
    show checkOperations (.ok ops) since mark' = sweepLoop ops since mark' from rfl,
    sweepLoop_ids, sweepLoop_ids]

/-- C2 counterexample: a CompleteOperation request with a wrong auth token
but no result variant fails with invalid-argument, not with
invalid-auth-token, because the result-variant check runs before the
token check. -/
theorem c2_wrong_token_not_always_auth_error :
    CompleteOperation [opLost] { UniqueId := idA, AuthToken := "wrong", Result := none } 99
      = ([opLost], .error (.invalidArgument "missing result value"))
    ∧ "wrong" ≠ opLost.AuthToken
    ∧ (RepoError.invalidArgument "missing result value") ≠ .invalidAuthToken :=
  ⟨rfl, by decide, by decide⟩

/-- C2 (amended): a wrong-token Update or Complete never mutates storage
(the post-call store, and hence a post-call Get, equals the pre-call
one), and fails with invalid-auth-token provided the request passes the
earlier request-level validation (a valid update mask for Update, a
present result variant for Complete). -/
theorem c2_wrong_token_rejected :
    (∀ (store : Store) (upd : UpdateOperationRequest) (now : Nat) (op : Operation),
      isValidObjectIdHex upd.UniqueId = true →
      findOperation store upd.UniqueId = some op →
      (∀ p ∈ upd.UpdateMask, p = "running" ∨ p = "annotations") →
      upd.AuthToken ≠ op.AuthToken →
      UpdateOperation store upd now = (store, .error .invalidAuthToken))
    ∧ (∀ (store : Store) (upd : CompleteOperationRequest) (now : Nat) (op : Operation)
        (r : CompleteResult),
      isValidObjectIdHex upd.UniqueId = true →
      findOperation store upd.UniqueId = some op →
      upd.Result = some r →
      upd.AuthToken ≠ op.AuthToken →
      CompleteOperation store upd now = (store, .error .invalidAuthToken))
    ∧ (∀ (store : Store) (upd : UpdateOperationRequest) (now : Nat) (op : Operation),
      findOperation store upd.UniqueId = some op →
      upd.AuthToken ≠ op.AuthToken →
      (UpdateOperation store upd now).1 = store
      ∧ ∀ g : GetOperationRequest,
          GetOperation (UpdateOperation store upd now).1 g = GetOperation store g)
    ∧ (∀ (store : Store) (upd : CompleteOperationRequest) (now : Nat) (op : Operation),
      findOperation store upd.UniqueId = some op →
      upd.AuthToken ≠ op.AuthToken →
      (CompleteOperation store upd now).1 = store
      ∧ ∀ g : GetOperationRequest,
          GetOperation (CompleteOperation store upd now).1 g = GetOperation store g) := by
  refine ⟨UpdateOperation_wrongToken, CompleteOperation_wrongToken, ?_, ?_⟩
  · intro store upd now op hfind htok
    have h := UpdateOperation_wrongToken_frame store upd now op hfind htok
    exact ⟨h, fun g => by rw [h]⟩
  · intro store upd now op hfind htok
    have h := CompleteOperation_wrongToken_frame store upd now op hfind htok
    exact ⟨h, fun g => by rw [h]⟩

/-- C2 witness: on a concrete RUNNING record, a wrong-token Update with
mask running and a wrong-token Complete with a success variant both fail
with invalid-auth-token and leave the concrete store unchanged. -/
theorem c2_wrong_token_rejected_witness :
    UpdateOperation [opRunning]
      { UniqueId := idA, AuthToken := "bad", Running := true,
        Annotations := [], UpdateMask := ["running"] } 99
      = ([opRunning], .error .invalidAuthToken)
    ∧ CompleteOperation [opRunning]
      { UniqueId := idA, AuthToken := "bad",
        Result := some (.success { Message := "m", Result := none }) } 99
      = ([opRunning], .error .invalidAuthToken) :=
  ⟨c2_wrong_token_rejected.1 [opRunning] _ 99 opRunning rfl rfl (by decide) (by decide),
   c2_wrong_token_rejected.2.1 [opRunning] _ 99 opRunning _ rfl rfl rfl (by decide)⟩

/-- C10 counterexample: on a COMPLETE record, a request with a wrong auth
token and an invalid mask entry fails with invalid-argument, not with
invalid-auth-token: mask validation runs before the token check. -/
theorem c10_bad_mask_precedes_token_check :
    UpdateOperation [opComplete]
      { UniqueId := idA, AuthToken := "wrong", Running := true,
        Annotations := [], UpdateMask := ["bogus"] } 99
      = ([opComplete], .error (.invalidArgument "invalid field in update mask"))
    ∧ opComplete.State = .COMPLETE
    ∧ "wrong" ≠ opComplete.AuthToken
    ∧ (RepoError.invalidArgument "invalid field in update mask") ≠ .invalidAuthToken :=
  ⟨rfl, rfl, by decide, by decide⟩

/-- C10 (amended): within `CanUpdate` the auth-token check precedes the
terminal-state check, so a wrong token is reported as invalid-auth-token
even on a COMPLETE record and operation-completed is only ever returned
when the supplied token matches; at the request level this holds for
every request that passes the earlier request-level validation (valid
mask for Update, present result variant for Complete). -/
theorem c10_token_check_first :
    (∀ (op : Operation) (tok : String),
      op.AuthToken ≠ tok → op.CanUpdate tok = some .invalidAuthToken)
    ∧ (∀ (op : Operation) (tok : String),
      op.CanUpdate tok = some .operationCompleted →
      op.AuthToken = tok ∧ op.State = .COMPLETE)
    ∧ (∀ (store : Store) (upd : UpdateOperationRequest) (now : Nat) (op : Operation),
      isValidObjectIdHex upd.UniqueId = true →
      findOperation store upd.UniqueId = some op →
      op.State = .COMPLETE →
      (∀ p ∈ upd.UpdateMask, p = "running" ∨ p = "annotations") →
      upd.AuthToken ≠ op.AuthToken →
      UpdateOperation store upd now = (store, .error .invalidAuthToken))
    ∧ (∀ (store : Store) (upd : CompleteOperationRequest) (now : Nat) (op : Operation)
        (r : CompleteResult),
      isValidObjectIdHex upd.UniqueId = true →
      findOperation store upd.UniqueId = some op →
      op.State = .COMPLETE →
      upd.Result = some r →
      upd.AuthToken ≠ op.AuthToken →
      CompleteOperation store upd now = (store, .error .invalidAuthToken)) := by
  refine ⟨?_, ?_, ?_, ?_⟩
  · intro op tok h
    simp only [Operation.CanUpdate, if_pos h]
  · intro op tok h
    unfold Operation.CanUpdate at h
    by_cases ht : op.AuthToken ≠ tok
    · rw [if_pos ht] at h
      cases h
    · rw [if_neg ht] at h
      by_cases hs : op.State = .COMPLETE
      · exact ⟨Classical.not_not.mp ht, hs⟩
      · rw [if_neg hs] at h
        cases h
  · intro store upd now op hvalid hfind _ hmask htok
    exact UpdateOperation_wrongToken store upd now op hvalid hfind hmask htok
  · intro store upd now op r hvalid hfind _ hres htok
    exact CompleteOperation_wrongToken store upd now op r hvalid hfind hres htok

/-- C10 witness: on a concrete COMPLETE record, a wrong token is reported
as invalid-auth-token (both at the `CanUpdate` level and for concrete
Update and Complete requests that pass request-level validation), and a
concrete operation-completed answer implies the token matched. -/
theorem c10_token_check_first_witness :
    opComplete.CanUpdate "wrong" = some .invalidAuthToken
    ∧ (opComplete.AuthToken = "tok" ∧ opComplete.State = .COMPLETE)
    ∧ UpdateOperation [opComplete]
      { UniqueId := idA, AuthToken := "wrong", Running := true,
        Annotations := [], UpdateMask := ["running"] } 99
      = ([opComplete], .error .invalidAuthToken)
    ∧ CompleteOperation [opComplete]
      { UniqueId := idA, AuthToken := "wrong",
        Result := some (.error { Message := "e", ErrorDetails := none }) } 99
      = ([opComplete], .error .invalidAuthToken) :=
  ⟨c10_token_check_first.1 opComplete "wrong" (by decide),
   c10_token_check_first.2.1 opComplete "tok" rfl,
   c10_token_check_first.2.2.1 [opComplete] _ 99 opComplete rfl rfl rfl (by decide) (by decide),
   c10_token_check_first.2.2.2 [opComplete] _ 99 opComplete _ rfl rfl rfl rfl (by decide)⟩

/-- Looking a record up in an extended store skips a prefix that does not
contain the id. -/
theorem findOperation_append (store l : Store) (id : String)
    (h : findOperation store id = none) :
    findOperation (store ++ l) id = findOperation l id := by
  induction store with
  | nil => rfl
  | cons o rest ih =>
      rw [List.cons_append,
        show findOperation (o :: (rest ++ l)) id
          = if o.ID = id then some o else findOperation (rest ++ l) id from rfl]
      rw [show findOperation (o :: rest) id
          = if o.ID = id then some o else findOperation rest id from rfl] at h
      by_cases ho : o.ID = id
      · rw [if_pos ho] at h
        cases h
      · rw [if_neg ho] at h ⊢
        exact ih h

/-- Mapping a value-preserving function over a parameter list is the
identity. -/
theorem map_pair_id (l : List (String × StructValue)) (f : StructValue → StructValue)
    (hf : ∀ v, f v = v) : (l.map fun kv => (kv.1, f kv.2)) = l := by
  induction l with
  | nil => rfl
  | cons kv rest ih => rw [List.map_cons, hf kv.2, ih]

/-- Collapsing the empty-parameters special case of `ToProto`. -/
theorem if_isEmpty_eq {α : Type} (l : List α) : (if l.isEmpty then ([] : List α) else l) = l := by
  cases l with
  | nil => rfl
  | cons a rest => rfl

/-- The record inserted by RegisterOperation, written out field by field. -/
theorem registeredModel_eq (req : RegisterOperationRequest) (now : Nat)
    (authCode : String) (newId : String) :
    registeredModel req now authCode newId =
      { ID := newId
        CreateTime := now
        LastUpdate := now
        Owner := req.Owner
        Creator := req.Creator
        State := if req.InitialState = .UNSPECIFIED then .PENDING else req.InitialState
        Ttl := req.Ttl.getD 300000000000
        GracePeriod := req.GracePeriod.getD 300000000000
        Description := req.Description
        Parameters := req.Parameters.map (fun kv => (kv.1, valueAsInterface kv.2))
        Annotations := req.Annotations
        Kind := req.Kind
        Success := none
        Error := none
        AuthToken := authCode
        PercentDone := 0
        StatusMessage := "" } := by
  unfold registeredModel operationFromRegistrationRequest
  cases hT : req.Ttl <;> cases hG : req.GracePeriod <;>
    by_cases hs : req.InitialState = .UNSPECIFIED <;>
      simp only [hs, if_pos, if_neg, Option.getD_none, Option.getD_some, ite_true, ite_false]

/-- C4: a Register followed by a Get on the returned id yields a snapshot
equal to the request in owner, creator, ttl, gracePeriod, description,
kind, parameters and annotations, with state PENDING when the requested
initial state was UNSPECIFIED and the requested state otherwise, with no
result variant, and with ttl and gracePeriod defaulting to 5 minutes
(300000000000 ns) when unset in the request. -/
theorem c4_register_get_roundtrip (store : Store) (req : RegisterOperationRequest)
    (now : Nat) (authCode newId : String)
    (hvalid : isValidObjectIdHex newId = true)
    (hfresh : findOperation store newId = none) :
    (RegisterOperation store req now authCode newId).2 = .ok (newId, authCode)
    ∧ GetOperation (RegisterOperation store req now authCode newId).1 { UniqueId := newId }
      = .ok
        { UniqueId := newId
          CreateTime := now
          Owner := req.Owner
          Creator := req.Creator
          State := if req.InitialState = .UNSPECIFIED then .PENDING else req.InitialState
          Ttl := req.Ttl.getD 300000000000
          GracePeriod := req.GracePeriod.getD 300000000000
          Description := req.Description
          LastUpdate := now
          Annotations := req.Annotations
          Kind := req.Kind
          StatusMessage := ""
          PercentDone := 0
          Parameters := req.Parameters
          Result := none } := by
  have hins : RegisterOperation store req now authCode newId
      = (store ++ [registeredModel req now authCode newId], .ok (newId, authCode)) := by
    unfold RegisterOperation
    rw [hfresh]
    rfl
  refine ⟨by rw [hins], ?_⟩
  rw [hins]
  unfold GetOperation
  rw [hvalid]
  simp only [if_true]
  rw [findOperation_append store _ newId hfresh]
  have hid : (registeredModel req now authCode newId).ID = newId := by
    rw [registeredModel_eq]
  unfold findOperation
  rw [if_pos hid]
  rw [registeredModel_eq]
  unfold Operation.ToProto
  simp only [map_pair_id _ structpbNewValue (fun v => rfl),
    map_pair_id _ valueAsInterface (fun v => rfl), if_isEmpty_eq, int32ofInt]
  norm_num

/-- C4 witness: a concrete Register (owner, creator, unset ttl, explicit
grace, one parameter, one annotation, initial state UNSPECIFIED) read
back through Get. -/
theorem c4_register_get_roundtrip_witness :
    (RegisterOperation []
      { Owner := "svc-a", Creator := "job-7", InitialState := .UNSPECIFIED,
        Ttl := none, GracePeriod := some 60000000000, Description := "d", Kind := "k",
        Parameters := [("p", .strv "v")], Annotations := [("a", "b")] } 7 "authcode" idA).2
      = .ok (idA, "authcode")
    ∧ GetOperation
        (RegisterOperation []
          { Owner := "svc-a", Creator := "job-7", InitialState := .UNSPECIFIED,
            Ttl := none, GracePeriod := some 60000000000, Description := "d", Kind := "k",
            Parameters := [("p", .strv "v")], Annotations := [("a", "b")] } 7 "authcode" idA).1
        { UniqueId := idA }
      = .ok
        { UniqueId := idA
          CreateTime := 7
          Owner := "svc-a"
          Creator := "job-7"
          State := .PENDING
          Ttl := 300000000000
          GracePeriod := 60000000000
          Description := "d"
          LastUpdate := 7
          Annotations := [("a", "b")]
          Kind := "k"
          StatusMessage := ""
          PercentDone := 0
          Parameters := [("p", .strv "v")]
          Result := none } :=
  c4_register_get_roundtrip []
    { Owner := "svc-a", Creator := "job-7", InitialState := .UNSPECIFIED,
      Ttl := none, GracePeriod := some 60000000000, Description := "d", Kind := "k",
      Parameters := [("p", .strv "v")], Annotations := [("a", "b")] } 7 "authcode" idA
    rfl rfl

/-- A load-and-validate with the matching token on a non-COMPLETE record
succeeds and yields the record. -/
theorem getAndValidateUpdate_ok (store : Store) (id tok : String) (op : Operation)
    (hfind : findOperation store id = some op) (htok : tok = op.AuthToken)
    (hstate : op.State ≠ .COMPLETE) :
    getAndValidateUpdate store id tok = .ok op := by
  unfold getAndValidateUpdate
  rw [hfind]
  have h1 : ¬(op.AuthToken ≠ tok) := fun h => h htok.symm
  simp only [Operation.CanUpdate, if_neg h1, if_neg hstate]

/-- A failing projection means both result variants were populated. -/
theorem ToProto_error_both (op : Operation) (e : RepoError) (h : op.ToProto = .error e) :
    op.Success.isSome ∧ op.Error.isSome := by
  unfold Operation.ToProto at h
  cases hs : op.Success <;> cases he : op.Error <;> rw [hs, he] at h
  · cases h
  · cases h
  · cases h
  · exact ⟨rfl, rfl⟩

/-- Projection succeeds whenever the two result variants are not both
populated. -/
theorem ToProto_ok_of_not_both (op : Operation)
    (h : ¬(op.Success.isSome ∧ op.Error.isSome)) :
    ∃ pb, op.ToProto = .ok pb := by
  unfold Operation.ToProto
  cases hs : op.Success with
  | some s =>
      cases he : op.Error with
      | some e => exact absurd ⟨by rw [hs]; rfl, by rw [he]; rfl⟩ h
      | none => exact ⟨_, rfl⟩
  | none =>
      cases he : op.Error with
      | some e => exact ⟨_, rfl⟩
      | none => exact ⟨_, rfl⟩

/-- C5: an Update with mask exactly running changes only the state and
lastUpdate of the stored record (annotations and every other field are
kept); an absent (empty) mask defaults to running and annotations, so
state, lastUpdate and annotations are written; and any unknown mask
entry makes the whole call fail with invalid-argument without mutating
storage. -/
theorem c5_update_mask_frame :
    (∀ (store : Store) (upd : UpdateOperationRequest) (now : Nat) (op : Operation),
      isValidObjectIdHex upd.UniqueId = true →
      findOperation store upd.UniqueId = some op →
      upd.UpdateMask = ["running"] →
      upd.AuthToken = op.AuthToken →
      op.State ≠ .COMPLETE →
      ¬(op.Success.isSome ∧ op.Error.isSome) →
      UpdateOperation store upd now
        = (storeUpdateFirst store upd.UniqueId
            { op with
                State := if upd.Running then .RUNNING else .PENDING,
                LastUpdate := now },
           ({ op with
                State := if upd.Running then .RUNNING else .PENDING,
                LastUpdate := now } : Operation).ToProto))
    ∧ (∀ (store : Store) (upd : UpdateOperationRequest) (now : Nat) (op : Operation),
      isValidObjectIdHex upd.UniqueId = true →
      findOperation store upd.UniqueId = some op →
      upd.UpdateMask = [] →
      upd.AuthToken = op.AuthToken →
      op.State ≠ .COMPLETE →
      ¬(op.Success.isSome ∧ op.Error.isSome) →
      UpdateOperation store upd now
        = (storeUpdateFirst store upd.UniqueId
            { op with
                State := if upd.Running then .RUNNING else .PENDING,
                LastUpdate := now,
                Annotations := upd.Annotations },
           ({ op with
                State := if upd.Running then .RUNNING else .PENDING,
                LastUpdate := now,
                Annotations := upd.Annotations } : Operation).ToProto))
    ∧ (∀ (store : Store) (upd : UpdateOperationRequest) (now : Nat) (p : String),
      isValidObjectIdHex upd.UniqueId = true →
      p ∈ upd.UpdateMask → p ≠ "running" → p ≠ "annotations" →
      UpdateOperation store upd now
        = (store, .error (.invalidArgument "invalid field in update mask"))) := by
  refine ⟨?_, ?_, ?_⟩
  · intro store upd now op hvalid hfind hmask htok hstate hboth
    unfold UpdateOperation
    rw [hvalid]
    simp only [if_true]
    rw [hmask]
    rw [show (if (["running"] : List String).length > 0 then ["running"]
        else ["running", "annotations"]) = ["running"] from rfl]
    rw [show buildUpdateDoc upd ["running"] (UpdateDoc.base now)
        = .ok { UpdateDoc.base now with
            state := some (if upd.Running then .RUNNING else .PENDING) } from rfl]
    rw [getAndValidateUpdate_ok store upd.UniqueId upd.AuthToken op hfind htok hstate]
    unfold findAndUpdateOperation
    rw [hfind]
    dsimp only
    split
    next e heq => exact absurd (ToProto_error_both _ e heq) hboth
    next pb heq =>
      rw [show ({ op with
            State := if upd.Running then .RUNNING else .PENDING,
            LastUpdate := now } : Operation).ToProto = .ok pb from heq]
      exact rfl
  · intro store upd now op hvalid hfind hmask htok hstate hboth
    unfold UpdateOperation
    rw [hvalid]
    simp only [if_true]
    rw [hmask]
    rw [show (if ([] : List String).length > 0 then ([] : List String)
        else ["running", "annotations"]) = ["running", "annotations"] from rfl]
    rw [show buildUpdateDoc upd ["running", "annotations"] (UpdateDoc.base now)
        = .ok { UpdateDoc.base now with
            state := some (if upd.Running then .RUNNING else .PENDING),
            annotations := some upd.Annotations } from rfl]
    rw [getAndValidateUpdate_ok store upd.UniqueId upd.AuthToken op hfind htok hstate]
    unfold findAndUpdateOperation
    rw [hfind]
    dsimp only
    split
    next e heq => exact absurd (ToProto_error_both _ e heq) hboth
    next pb heq =>
      rw [show ({ op with
            State := if upd.Running then .RUNNING else .PENDING,
            LastUpdate := now,
            Annotations := upd.Annotations } : Operation).ToProto = .ok pb from heq]
      exact rfl
  · intro store upd now p hvalid hp hr ha
    unfold UpdateOperation
    rw [hvalid]
    simp only [if_true]
    have hlen : upd.UpdateMask.length > 0 := by
      cases hm : upd.UpdateMask with
      | nil => rw [hm] at hp; cases hp
      | cons q rest => simp only [List.length_cons, Nat.succ_pos, gt_iff_lt]
    rw [if_pos hlen]
    rw [buildUpdateDoc_err upd upd.UpdateMask (UpdateDoc.base now) p hp hr ha]

/-- C5 witness: on a concrete RUNNING record, Update with mask running
flips only state and lastUpdate; Update with empty mask also replaces
the annotations; and a bogus mask entry fails with invalid-argument and
an unchanged store. -/
theorem c5_update_mask_frame_witness :
    UpdateOperation [opRunning]
      { UniqueId := idA, AuthToken := "tok", Running := false,
        Annotations := [("x", "y")], UpdateMask := ["running"] } 99
      = ([{ opRunning with State := .PENDING, LastUpdate := 99 }],
         ({ opRunning with State := .PENDING, LastUpdate := 99 } : Operation).ToProto)
    ∧ UpdateOperation [opRunning]
      { UniqueId := idA, AuthToken := "tok", Running := true,
        Annotations := [("x", "y")], UpdateMask := [] } 99
      = ([{ opRunning with State := .RUNNING, LastUpdate := 99, Annotations := [("x", "y")] }],
         ({ opRunning with
              State := .RUNNING,
              LastUpdate := 99,
              Annotations := [("x", "y")] } : Operation).ToProto)
    ∧ UpdateOperation [opRunning]
      { UniqueId := idA, AuthToken := "tok", Running := true,
        Annotations := [("x", "y")], UpdateMask := ["bogus"] } 99
      = ([opRunning], .error (.invalidArgument "invalid field in update mask")) :=
  ⟨c5_update_mask_frame.1 [opRunning] _ 99 opRunning rfl rfl rfl rfl (by decide) (by decide),
   c5_update_mask_frame.2.1 [opRunning] _ 99 opRunning rfl rfl rfl rfl (by decide) (by decide),
   c5_update_mask_frame.2.2 [opRunning] _ 99 "bogus" rfl (List.mem_singleton.mpr rfl)
     (by decide) (by decide)⟩

/-- Replacing the first record with a given id makes it the one a lookup
finds. -/
theorem findOperation_storeUpdateFirst (store : Store) (id : String) (op op' : Operation)
    (hfind : findOperation store id = some op) (hid : op'.ID = id) :
    findOperation (storeUpdateFirst store id op') id = some op' := by
  induction store with
  | nil => cases hfind
  | cons o rest ih =>
      rw [show findOperation (o :: rest) id
          = if o.ID = id then some o else findOperation rest id from rfl] at hfind
      rw [show storeUpdateFirst (o :: rest) id op'
          = if o.ID = id then op' :: rest else o :: storeUpdateFirst rest id op' from rfl]
      by_cases ho : o.ID = id
      · rw [if_pos ho]
        rw [show findOperation (op' :: rest) id
            = if op'.ID = id then some op' else findOperation rest id from rfl, if_pos hid]
      · rw [if_neg ho] at hfind
        rw [if_neg ho]
        rw [show findOperation (o :: storeUpdateFirst rest id op') id
            = if o.ID = id then some o else findOperation (storeUpdateFirst rest id op') id
            from rfl, if_neg ho]
        exact ih hfind

/-- A record found by id carries that id. -/
theorem findOperation_id (store : Store) (id : String) (op : Operation)
    (h : findOperation store id = some op) : op.ID = id := by
  induction store with
  | nil => cases h
  | cons o rest ih =>
      rw [show findOperation (o :: rest) id
          = if o.ID = id then some o else findOperation rest id from rfl] at h
      by_cases ho : o.ID = id
      · rw [if_pos ho] at h
        cases h
        exact ho
      · rw [if_neg ho] at h
        exact ih h

/-- A successful projection rules out both variants being populated. -/
theorem ToProto_ok_not_both (op : Operation) (pb : OperationProto)
    (h : op.ToProto = .ok pb) : ¬(op.Success.isSome ∧ op.Error.isSome) := by
  rintro ⟨h1, h2⟩
  obtain ⟨s, hs⟩ := Option.isSome_iff_exists.mp h1
  obtain ⟨e2, he⟩ := Option.isSome_iff_exists.mp h2
  unfold Operation.ToProto at h
  rw [hs, he] at h
  dsimp only at h
  cases h

/-- C6: a Complete without a result variant fails with invalid-argument
before the transaction and leaves storage unchanged; a valid Complete
sets state COMPLETE, rewrites lastUpdate and persists the chosen variant
while the other variant stays as it was (absent on every state the other
repository operations can produce); and every successful Complete leaves
a record that does not carry both variants: when both would end up
populated the projection fails and the transaction rolls back. -/
theorem c6_complete_result_semantics :
    (∀ (store : Store) (upd : CompleteOperationRequest) (now : Nat),
      isValidObjectIdHex upd.UniqueId = true →
      upd.Result = none →
      CompleteOperation store upd now
        = (store, .error (.invalidArgument "missing result value")))
    ∧ (∀ (store : Store) (upd : CompleteOperationRequest) (now : Nat) (op : Operation)
        (s : OperationSuccess),
      isValidObjectIdHex upd.UniqueId = true →
      findOperation store upd.UniqueId = some op →
      upd.Result = some (.success s) →
      upd.AuthToken = op.AuthToken →
      op.State ≠ .COMPLETE →
      op.Error = none →
      CompleteOperation store upd now
        = (storeUpdateFirst store upd.UniqueId
            { op with
                State := .COMPLETE,
                LastUpdate := now,
                Success := some { Message := s.Message, Result := s.Result } },
           ({ op with
                State := .COMPLETE,
                LastUpdate := now,
                Success := some { Message := s.Message, Result := s.Result } }
              : Operation).ToProto))
    ∧ (∀ (store : Store) (upd : CompleteOperationRequest) (now : Nat) (op : Operation)
        (e : OperationError),
      isValidObjectIdHex upd.UniqueId = true →
      findOperation store upd.UniqueId = some op →
      upd.Result = some (.error e) →
      upd.AuthToken = op.AuthToken →
      op.State ≠ .COMPLETE →
      op.Success = none →
      CompleteOperation store upd now
        = (storeUpdateFirst store upd.UniqueId
            { op with
                State := .COMPLETE,
                LastUpdate := now,
                Error := some { Message := e.Message, Details := e.ErrorDetails } },
           ({ op with
                State := .COMPLETE,
                LastUpdate := now,
                Error := some { Message := e.Message, Details := e.ErrorDetails } }
              : Operation).ToProto))
    ∧ (∀ (store st' : Store) (upd : CompleteOperationRequest) (now : Nat) (pb : OperationProto),
      CompleteOperation store upd now = (st', .ok pb) →
      ∃ op', findOperation st' upd.UniqueId = some op'
        ∧ op'.State = .COMPLETE
        ∧ op'.LastUpdate = now
        ∧ ¬(op'.Success.isSome ∧ op'.Error.isSome)) := by
  refine ⟨?_, ?_, ?_, ?_⟩
  · intro store upd now hvalid hres
    unfold CompleteOperation
    rw [hvalid]
    simp only [if_true]
    rw [hres]
  · intro store upd now op s hvalid hfind hres htok hstate herr
    unfold CompleteOperation
    rw [hvalid]
    simp only [if_true]
    rw [hres]
    rw [getAndValidateUpdate_ok store upd.UniqueId upd.AuthToken op hfind htok hstate]
    unfold findAndUpdateOperation
    rw [hfind]
    dsimp only
    split
    next e heq =>
      have h2 : op.Error.isSome = true := (ToProto_error_both _ e heq).2
      rw [herr] at h2
      cases h2
    next pb heq =>
      have heq2 : ({ op with
          State := .COMPLETE,
          LastUpdate := now,
          Success := some { Message := s.Message, Result := s.Result } }
            : Operation).ToProto = .ok pb := heq
      rw [heq2]
      exact rfl
  · intro store upd now op e hvalid hfind hres htok hstate hsucc
    unfold CompleteOperation
    rw [hvalid]
    simp only [if_true]
    rw [hres]
    rw [getAndValidateUpdate_ok store upd.UniqueId upd.AuthToken op hfind htok hstate]
    unfold findAndUpdateOperation
    rw [hfind]
    dsimp only
    split
    next e2 heq =>
      have h1 : op.Success.isSome = true := (ToProto_error_both _ e2 heq).1
      rw [hsucc] at h1
      cases h1
    next pb heq =>
      have heq2 : ({ op with
          State := .COMPLETE,
          LastUpdate := now,
          Error := some { Message := e.Message, Details := e.ErrorDetails } }
            : Operation).ToProto = .ok pb := heq
      rw [heq2]
      exact rfl
  · intro store st' upd now pb h
    unfold CompleteOperation at h
    by_cases hv : isValidObjectIdHex upd.UniqueId
    · rw [hv] at h
      simp only [if_true] at h
      rcases hres : upd.Result with _ | r
      · rw [hres] at h
        exact Except.noConfusion (congrArg Prod.snd h)
      · rw [hres] at h
        rcases hval : getAndValidateUpdate store upd.UniqueId upd.AuthToken with e | op
        all_goals cases r with
        | success s =>
            rw [hval] at h
            first
            | exact Except.noConfusion (congrArg Prod.snd h)
            | (unfold findAndUpdateOperation at h
               rcases hfind : findOperation store upd.UniqueId with _ | op2
               · rw [hfind] at h
                 exact Except.noConfusion (congrArg Prod.snd h)
               · rw [hfind] at h
                 dsimp only at h
                 split at h
                 next e2 heq => exact Except.noConfusion (congrArg Prod.snd h)
                 next pb2 heq =>
                   have hst : st' = storeUpdateFirst store upd.UniqueId
                       (applyUpdateDoc op2
                        { lastUpdate := now, state := some .COMPLETE, annotations := none,
                          success := some { Message := s.Message, Result := s.Result },
                          error := none }) := (congrArg Prod.fst h).symm
                   have hpb : pb2 = pb := by
                     have := congrArg Prod.snd h
                     exact (Except.ok.injEq _ _).mp this
                   refine ⟨applyUpdateDoc op2
                       { lastUpdate := now, state := some .COMPLETE, annotations := none,
                         success := some { Message := s.Message, Result := s.Result },
                         error := none }, ?_, rfl, rfl, ?_⟩
                   · rw [hst]
                     exact findOperation_storeUpdateFirst store upd.UniqueId op2 _ hfind
                       (findOperation_id store upd.UniqueId op2 hfind)
                   · rw [hpb] at heq
                     exact ToProto_ok_not_both _ pb heq)
        | error e =>
            rw [hval] at h
            first
            | exact Except.noConfusion (congrArg Prod.snd h)
            | (unfold findAndUpdateOperation at h
               rcases hfind : findOperation store upd.UniqueId with _ | op2
               · rw [hfind] at h
                 exact Except.noConfusion (congrArg Prod.snd h)
               · rw [hfind] at h
                 dsimp only at h
                 split at h
                 next e2 heq => exact Except.noConfusion (congrArg Prod.snd h)
                 next pb2 heq =>
                   have hst : st' = storeUpdateFirst store upd.UniqueId
                       (applyUpdateDoc op2
                        { lastUpdate := now, state := some .COMPLETE, annotations := none,
                          success := none,
                          error := some { Message := e.Message, Details := e.ErrorDetails } })
                     := (congrArg Prod.fst h).symm
                   have hpb : pb2 = pb := by
                     have := congrArg Prod.snd h
                     exact (Except.ok.injEq _ _).mp this
                   refine ⟨applyUpdateDoc op2
                       { lastUpdate := now, state := some .COMPLETE, annotations := none,
                         success := none,
                         error := some { Message := e.Message, Details := e.ErrorDetails } },
                     ?_, rfl, rfl, ?_⟩
                   · rw [hst]
                     exact findOperation_storeUpdateFirst store upd.UniqueId op2 _ hfind
                       (findOperation_id store upd.UniqueId op2 hfind)
                   · rw [hpb] at heq
                     exact ToProto_ok_not_both _ pb heq)
    · simp only [Bool.not_eq_true] at hv
      rw [hv] at h
      simp only [Bool.false_eq_true, if_false] at h
      exact Except.noConfusion (congrArg Prod.snd h)

/-- C6 witness: on a concrete RUNNING record, Complete without a variant
fails with invalid-argument; Complete with a success (resp. error)
variant persists COMPLETE plus exactly that variant and rewrites
lastUpdate; and the committed record of the success call satisfies the
never-both property. -/
theorem c6_complete_result_semantics_witness :
    CompleteOperation [opRunning] { UniqueId := idA, AuthToken := "tok", Result := none } 99
      = ([opRunning], .error (.invalidArgument "missing result value"))
    ∧ CompleteOperation [opRunning]
        { UniqueId := idA, AuthToken := "tok",
          Result := some (.success { Message := "done", Result := none }) } 99
      = ([{ opRunning with
              State := .COMPLETE,
              LastUpdate := 99,
              Success := some { Message := "done", Result := none } }],
         ({ opRunning with
              State := .COMPLETE,
              LastUpdate := 99,
              Success := some { Message := "done", Result := none } } : Operation).ToProto)
    ∧ CompleteOperation [opRunning]
        { UniqueId := idA, AuthToken := "tok",
          Result := some (.error { Message := "boom", ErrorDetails := none }) } 99
      = ([{ opRunning with
              State := .COMPLETE,
              LastUpdate := 99,
              Error := some { Message := "boom", Details := none } }],
         ({ opRunning with
              State := .COMPLETE,
              LastUpdate := 99,
              Error := some { Message := "boom", Details := none } } : Operation).ToProto)
    ∧ (∃ op', findOperation
          [{ opRunning with
               State := .COMPLETE,
               LastUpdate := 99,
               Success := some { Message := "done", Result := none } }] idA = some op'
        ∧ op'.State = .COMPLETE
        ∧ op'.LastUpdate = 99
        ∧ ¬(op'.Success.isSome ∧ op'.Error.isSome)) :=
  ⟨c6_complete_result_semantics.1 [opRunning] _ 99 rfl rfl,
   c6_complete_result_semantics.2.1 [opRunning]
     { UniqueId := idA, AuthToken := "tok",
       Result := some (.success { Message := "done", Result := none }) } 99 opRunning
     { Message := "done", Result := none } rfl rfl rfl rfl (by decide) rfl,
   c6_complete_result_semantics.2.2.1 [opRunning]
     { UniqueId := idA, AuthToken := "tok",
       Result := some (.error { Message := "boom", ErrorDetails := none }) } 99 opRunning
     { Message := "boom", ErrorDetails := none } rfl rfl rfl rfl (by decide) rfl,
   c6_complete_result_semantics.2.2.2 [opRunning]
     [{ opRunning with
          State := .COMPLETE,
          LastUpdate := 99,
          Success := some { Message := "done", Result := none } }]
     { UniqueId := idA, AuthToken := "tok",
       Result := some (.success { Message := "done", Result := none }) } 99
     { UniqueId := idA, CreateTime := 10, Owner := "o", Creator := "c", State := .COMPLETE,
       Ttl := 100, GracePeriod := 5, Description := "d", LastUpdate := 99,
       Annotations := [("a", "b")], Kind := "k", StatusMessage := "", PercentDone := 0,
       Parameters := [], Result := some (.success { Message := "done", Result := none }) }
     rfl⟩

/-- C7 counterexample: MarkAsLost on a COMPLETE record neither returns the
unchanged snapshot nor fails with operation-completed: it succeeds,
overwrites the terminal state with LOST and rewrites lastUpdate. -/
theorem c7_markaslost_overwrites_terminal :
    ((MarkAsLost [opComplete] idA 99).2).map (fun pb => (pb.State, pb.LastUpdate))
      = .ok (.LOST, 99)
    ∧ (MarkAsLost [opComplete] idA 99).1.map (fun o => (o.State, o.LastUpdate))
      = [(.LOST, 99)]
    ∧ opComplete.State = .COMPLETE
    ∧ opComplete.LastUpdate = 20 :=
  ⟨rfl, rfl, rfl, rfl⟩

/-- C7 (amended): MarkAsLost performs no terminal-state (and no token)
check at all: for any stored record, terminal or not, it sets the state
to LOST, rewrites lastUpdate, persists that, and returns the projection
of the updated record. -/
theorem c7_markaslost_no_terminal_check (store : Store) (id : String) (now : Nat)
    (op : Operation) (hvalid : isValidObjectIdHex id = true)
    (hfind : findOperation store id = some op) :
    MarkAsLost store id now
      = (storeUpdateFirst store id { op with State := .LOST, LastUpdate := now },
         ({ op with State := .LOST, LastUpdate := now } : Operation).ToProto) := by
  unfold MarkAsLost
  rw [hvalid]
  simp only [if_true]
  unfold findAndUpdateOperation
  rw [hfind]
  dsimp only
  split
  next e heq =>
    rw [show ({ op with State := .LOST, LastUpdate := now } : Operation).ToProto
        = .error e from heq]
    exact rfl
  next pb heq =>
    rw [show ({ op with State := .LOST, LastUpdate := now } : Operation).ToProto
        = .ok pb from heq]
    exact rfl

/-- C7 witness: MarkAsLost applied to a concrete COMPLETE record replaces
its state with LOST and rewrites lastUpdate. -/
theorem c7_markaslost_no_terminal_check_witness :
    MarkAsLost [opComplete] idA 99
      = ([{ opComplete with State := .LOST, LastUpdate := 99 }],
         ({ opComplete with State := .LOST, LastUpdate := 99 } : Operation).ToProto) :=
  c7_markaslost_no_terminal_check [opComplete] idA 99 opComplete rfl rfl

/-- C9 counterexample: a Register request that explicitly sets the ttl to
zero and the grace period to a negative duration has those values
persisted unchanged, violating ttl strictly positive and gracePeriod
non-negative. -/
theorem c9_explicit_zero_ttl_persisted :
    ((RegisterOperation []
        { Owner := "o", Creator := "c", InitialState := .RUNNING,
          Ttl := some 0, GracePeriod := some (-5), Description := "", Kind := "",
          Parameters := [], Annotations := [] } 7 "code" idA).1.map
      (fun o => (o.Ttl, o.GracePeriod))) = [(0, -5)]
    ∧ ¬((0 : Int) < 0)
    ∧ ¬((0 : Int) ≤ -5) :=
  ⟨rfl, by decide, by decide⟩

/-- C9 (amended): the 5-minute defaults apply only when the request leaves
ttl or gracePeriod unset, and those defaults are strictly positive; an
explicitly supplied duration, including zero or a negative one, is
persisted unchanged into the registered record. -/
theorem c9_ttl_default_only_when_unset :
    (∀ (req : RegisterOperationRequest) (now : Nat),
      (req.Ttl = none →
        (operationFromRegistrationRequest req now).Ttl = 300000000000
        ∧ 0 < (operationFromRegistrationRequest req now).Ttl)
      ∧ (req.GracePeriod = none →
        (operationFromRegistrationRequest req now).GracePeriod = 300000000000
        ∧ 0 ≤ (operationFromRegistrationRequest req now).GracePeriod)
      ∧ (∀ d, req.Ttl = some d → (operationFromRegistrationRequest req now).Ttl = d)
      ∧ (∀ d, req.GracePeriod = some d →
          (operationFromRegistrationRequest req now).GracePeriod = d))
    ∧ (∀ (store : Store) (req : RegisterOperationRequest) (now : Nat) (code newId : String),
      (RegisterOperation store req now code newId).1 = store
      ∨ (RegisterOperation store req now code newId).1
          = store ++ [registeredModel req now code newId])
    ∧ (∀ (req : RegisterOperationRequest) (now : Nat) (code newId : String),
      (registeredModel req now code newId).Ttl
        = (operationFromRegistrationRequest req now).Ttl
      ∧ (registeredModel req now code newId).GracePeriod
        = (operationFromRegistrationRequest req now).GracePeriod) := by
  refine ⟨?_, ?_, ?_⟩
  · intro req now
    refine ⟨?_, ?_, ?_, ?_⟩
    · intro h
      simp only [operationFromRegistrationRequest, h]
      exact ⟨trivial, by norm_num⟩
    · intro h
      simp only [operationFromRegistrationRequest, h]
      exact ⟨trivial, by norm_num⟩
    · intro d h
      simp only [operationFromRegistrationRequest, h]
    · intro d h
      simp only [operationFromRegistrationRequest, h]
  · intro store req now code newId
    unfold RegisterOperation
    by_cases hdup : (findOperation store newId).isSome
    · rw [if_pos hdup]
      exact Or.inl rfl
    · rw [if_neg hdup]
      exact Or.inr rfl
  · intro req now code newId
    rw [registeredModel_eq]
    constructor
    · show req.Ttl.getD 300000000000 = (operationFromRegistrationRequest req now).Ttl
      cases hT : req.Ttl <;>
        simp only [operationFromRegistrationRequest, hT, Option.getD_none, Option.getD_some]
    · show req.GracePeriod.getD 300000000000
        = (operationFromRegistrationRequest req now).GracePeriod
      cases hG : req.GracePeriod <;>
        simp only [operationFromRegistrationRequest, hG, Option.getD_none, Option.getD_some]

/-- C9 witness: with both durations unset the 5-minute defaults apply and
satisfy the invariant, while an explicit zero ttl is kept; registering
into an empty store inserts exactly the model record. -/
theorem c9_ttl_default_only_when_unset_witness :
    ((operationFromRegistrationRequest
        { Owner := "o", Creator := "c", InitialState := .RUNNING,
          Ttl := none, GracePeriod := none, Description := "", Kind := "",
          Parameters := [], Annotations := [] } 7).Ttl = 300000000000
      ∧ 0 < (operationFromRegistrationRequest
        { Owner := "o", Creator := "c", InitialState := .RUNNING,
          Ttl := none, GracePeriod := none, Description := "", Kind := "",
          Parameters := [], Annotations := [] } 7).Ttl)
    ∧ (operationFromRegistrationRequest
        { Owner := "o", Creator := "c", InitialState := .RUNNING,
          Ttl := some 0, GracePeriod := some (-5), Description := "", Kind := "",
          Parameters := [], Annotations := [] } 7).Ttl = 0
    ∧ ((RegisterOperation []
        { Owner := "o", Creator := "c", InitialState := .RUNNING,
          Ttl := none, GracePeriod := none, Description := "", Kind := "",
          Parameters := [], Annotations := [] } 7 "code" idA).1 = []
      ∨ (RegisterOperation []
        { Owner := "o", Creator := "c", InitialState := .RUNNING,
          Ttl := none, GracePeriod := none, Description := "", Kind := "",
          Parameters := [], Annotations := [] } 7 "code" idA).1
        = [] ++ [registeredModel
            { Owner := "o", Creator := "c", InitialState := .RUNNING,
              Ttl := none, GracePeriod := none, Description := "", Kind := "",
              Parameters := [], Annotations := [] } 7 "code" idA]) :=
  ⟨(c9_ttl_default_only_when_unset.1
      { Owner := "o", Creator := "c", InitialState := .RUNNING,
        Ttl := none, GracePeriod := none, Description := "", Kind := "",
        Parameters := [], Annotations := [] } 7).1 rfl,
   (c9_ttl_default_only_when_unset.1
      { Owner := "o", Creator := "c", InitialState := .RUNNING,
        Ttl := some 0, GracePeriod := some (-5), Description := "", Kind := "",
        Parameters := [], Annotations := [] } 7).2.2.1 0 rfl,
   c9_ttl_default_only_when_unset.2.1 []
      { Owner := "o", Creator := "c", InitialState := .RUNNING,
        Ttl := none, GracePeriod := none, Description := "", Kind := "",
        Parameters := [], Annotations := [] } 7 "code" idA⟩

/-- The projection never reads the auth token. -/
theorem ToProto_withAuthToken (op : Operation) (t : String) :
    (withAuthToken op t).ToProto = op.ToProto := rfl

/-- Lookup commutes with re-tokening the whole store. -/
theorem findOperation_withAuthToken (store : Store) (t : String) (id : String) :
    findOperation (store.map (fun o => withAuthToken o t)) id
      = (findOperation store id).map (fun o => withAuthToken o t) := by
  induction store with
  | nil => rfl
  | cons o rest ih =>
      rw [List.map_cons]
      rw [show findOperation (withAuthToken o t :: rest.map (fun o => withAuthToken o t)) id
          = if (withAuthToken o t).ID = id then some (withAuthToken o t)
            else findOperation (rest.map (fun o => withAuthToken o t)) id from rfl]
      rw [show findOperation (o :: rest) id
          = if o.ID = id then some o else findOperation rest id from rfl]
      by_cases ho : o.ID = id
      · rw [if_pos ho, if_pos (show (withAuthToken o t).ID = id from ho)]
        rfl
      · rw [if_neg ho, if_neg (show ¬((withAuthToken o t).ID = id) from ho), ih]

/-- Filtering with a token-oblivious predicate commutes with re-tokening. -/
theorem filter_withAuthToken (store : Store) (t : String) (p : Operation → Bool)
    (hp : ∀ o, p (withAuthToken o t) = p o) :
    (store.map (fun o => withAuthToken o t)).filter p
      = (store.filter p).map (fun o => withAuthToken o t) := by
  induction store with
  | nil => rfl
  | cons o rest ih =>
      rw [List.map_cons, List.filter_cons, List.filter_cons, hp o]
      by_cases hpo : p o = true
      · rw [if_pos hpo, if_pos hpo, ih, List.map_cons]
      · rw [if_neg hpo, if_neg hpo, ih]

/-- Sorted insertion commutes with re-tokening. -/
theorem insertByCreateTimeDesc_withAuthToken (op : Operation) (l : List Operation) (t : String) :
    insertByCreateTimeDesc (withAuthToken op t) (l.map (fun o => withAuthToken o t))
      = (insertByCreateTimeDesc op l).map (fun o => withAuthToken o t) := by
  induction l with
  | nil => rfl
  | cons o rest ih =>
      rw [List.map_cons]
      rw [show insertByCreateTimeDesc (withAuthToken op t)
            (withAuthToken o t :: rest.map (fun o => withAuthToken o t))
          = if (withAuthToken o t).CreateTime < (withAuthToken op t).CreateTime
            then withAuthToken op t :: withAuthToken o t
              :: rest.map (fun o => withAuthToken o t)
            else withAuthToken o t
              :: insertByCreateTimeDesc (withAuthToken op t)
                  (rest.map (fun o => withAuthToken o t)) from rfl]
      rw [show insertByCreateTimeDesc op (o :: rest)
          = if o.CreateTime < op.CreateTime then op :: o :: rest
            else o :: insertByCreateTimeDesc op rest from rfl]
      by_cases hc : o.CreateTime < op.CreateTime
      · rw [if_pos hc,
          if_pos (show (withAuthToken o t).CreateTime < (withAuthToken op t).CreateTime from hc),
          List.map_cons, List.map_cons]
      · rw [if_neg hc,
          if_neg (show ¬((withAuthToken o t).CreateTime < (withAuthToken op t).CreateTime)
            from hc),
          ih, List.map_cons]

/-- Sorting commutes with re-tokening. -/
theorem sortByCreateTimeDesc_withAuthToken (l : List Operation) (t : String) :
    sortByCreateTimeDesc (l.map (fun o => withAuthToken o t))
      = (sortByCreateTimeDesc l).map (fun o => withAuthToken o t) := by
  induction l with
  | nil => rfl
  | cons o rest ih =>
      rw [List.map_cons]
      rw [show sortByCreateTimeDesc (withAuthToken o t :: rest.map (fun o => withAuthToken o t))
          = insertByCreateTimeDesc (withAuthToken o t)
              (sortByCreateTimeDesc (rest.map (fun o => withAuthToken o t))) from rfl]
      rw [show sortByCreateTimeDesc (o :: rest)
          = insertByCreateTimeDesc o (sortByCreateTimeDesc rest) from rfl]
      rw [ih, insertByCreateTimeDesc_withAuthToken]

/-- The projection fold of `Repo.find` does not depend on the tokens. -/
theorem findOps_fold_withAuthToken (l : List Operation) (t : String) :
    (l.map (fun o => withAuthToken o t)).foldr
      (fun m acc =>
        match m.ToProto with
        | .ok pb => (pb :: acc.1, acc.2)
        | .error e => (acc.1, e :: acc.2))
      ([], [])
      = l.foldr
        (fun m acc =>
          match m.ToProto with
          | .ok pb => (pb :: acc.1, acc.2)
          | .error e => (acc.1, e :: acc.2))
        ([], []) := by
  induction l with
  | nil => rfl
  | cons o rest ih =>
      simp only [List.map_cons, List.foldr_cons, ih, ToProto_withAuthToken]

/-- C8: snapshots carry no information about the stored auth token: the
wire projection is invariant under replacing the token, Get and Query
answers are unchanged when every stored token is replaced, every
successful Update / Complete / MarkAsLost snapshot is the projection of
a stored record (a projection that ignores the token), and the token
itself is returned exactly by the RegisterOperation response. -/
theorem c8_snapshots_never_carry_token :
    (∀ (op : Operation) (t : String), (withAuthToken op t).ToProto = op.ToProto)
    ∧ (∀ (store : Store) (req : GetOperationRequest) (t : String),
      GetOperation (store.map (fun o => withAuthToken o t)) req = GetOperation store req)
    ∧ (∀ (store : Store) (q : QueryOperationsRequest) (t : String),
      QueryOperations (store.map (fun o => withAuthToken o t)) q = QueryOperations store q)
    ∧ (∀ (store st' : Store) (upd : UpdateOperationRequest) (now : Nat) (pb : OperationProto),
      UpdateOperation store upd now = (st', .ok pb) → ∃ o : Operation, o.ToProto = .ok pb)
    ∧ (∀ (store st' : Store) (upd : CompleteOperationRequest) (now : Nat) (pb : OperationProto),
      CompleteOperation store upd now = (st', .ok pb) → ∃ o : Operation, o.ToProto = .ok pb)
    ∧ (∀ (store st' : Store) (id : String) (now : Nat) (pb : OperationProto),
      MarkAsLost store id now = (st', .ok pb) → ∃ o : Operation, o.ToProto = .ok pb)
    ∧ (∀ (store st' : Store) (req : RegisterOperationRequest) (now : Nat)
        (code newId : String) (res : OperationProto × String),
      ServiceRegisterOperation store req now code newId = (st', .ok res) → res.2 = code) := by
  refine ⟨fun op t => ToProto_withAuthToken op t, ?_, ?_, ?_, ?_, ?_, ?_⟩
  · intro store req t
    unfold GetOperation
    by_cases hv : isValidObjectIdHex req.UniqueId
    · rw [hv]
      simp only [if_true]
      rw [findOperation_withAuthToken]
      cases hf : findOperation store req.UniqueId with
      | none => rfl
      | some op => exact ToProto_withAuthToken op t
    · simp only [Bool.not_eq_true] at hv
      rw [hv]
      simp only [Bool.false_eq_true, if_false]
  · intro store q t
    unfold QueryOperations findOps
    rw [filter_withAuthToken store t (matchesQuery q) (fun o => rfl)]
    rw [sortByCreateTimeDesc_withAuthToken]
    exact findOps_fold_withAuthToken (sortByCreateTimeDesc (store.filter (matchesQuery q))) t
  · intro store st' upd now pb h
    unfold UpdateOperation at h
    by_cases hv : isValidObjectIdHex upd.UniqueId
    · rw [hv] at h
      simp only [if_true] at h
      rcases hb : buildUpdateDoc upd
          (if upd.UpdateMask.length > 0 then upd.UpdateMask else ["running", "annotations"])
          (UpdateDoc.base now) with e | doc
      · rw [hb] at h
        exact Except.noConfusion (congrArg Prod.snd h)
      · rw [hb] at h
        rcases hval : getAndValidateUpdate store upd.UniqueId upd.AuthToken with e | op
        · rw [hval] at h
          exact Except.noConfusion (congrArg Prod.snd h)
        · rw [hval] at h
          unfold findAndUpdateOperation at h
          rcases hf : findOperation store upd.UniqueId with _ | op2
          · rw [hf] at h
            exact Except.noConfusion (congrArg Prod.snd h)
          · rw [hf] at h
            dsimp only at h
            split at h
            next e2 heq => exact Except.noConfusion (congrArg Prod.snd h)
            next pb2 heq =>
              have hpb : pb2 = pb := (Except.ok.injEq _ _).mp (congrArg Prod.snd h)
              exact ⟨applyUpdateDoc op2 doc, by rw [← hpb]; exact heq⟩
    · simp only [Bool.not_eq_true] at hv
      rw [hv] at h
      simp only [Bool.false_eq_true, if_false] at h
      exact Except.noConfusion (congrArg Prod.snd h)
  · intro store st' upd now pb h
    unfold CompleteOperation at h
    by_cases hv : isValidObjectIdHex upd.UniqueId
    · rw [hv] at h
      simp only [if_true] at h
      rcases hres : upd.Result with _ | r
      · rw [hres] at h
        exact Except.noConfusion (congrArg Prod.snd h)
      · rw [hres] at h
        rcases hval : getAndValidateUpdate store upd.UniqueId upd.AuthToken with e | op
        · cases r <;> rw [hval] at h <;> exact Except.noConfusion (congrArg Prod.snd h)
        · cases r with
          | success s =>
              rw [hval] at h
              unfold findAndUpdateOperation at h
              rcases hf : findOperation store upd.UniqueId with _ | op2
              · rw [hf] at h
                exact Except.noConfusion (congrArg Prod.snd h)
              · rw [hf] at h
                dsimp only at h
                split at h
                next e2 heq => exact Except.noConfusion (congrArg Prod.snd h)
                next pb2 heq =>
                  have hpb : pb2 = pb := (Except.ok.injEq _ _).mp (congrArg Prod.snd h)
                  exact ⟨_, by rw [← hpb]; exact heq⟩
          | error e =>
              rw [hval] at h
              unfold findAndUpdateOperation at h
              rcases hf : findOperation store upd.UniqueId with _ | op2
              · rw [hf] at h
                exact Except.noConfusion (congrArg Prod.snd h)
              · rw [hf] at h
                dsimp only at h
                split at h
                next e2 heq => exact Except.noConfusion (congrArg Prod.snd h)
                next pb2 heq =>
                  have hpb : pb2 = pb := (Except.ok.injEq _ _).mp (congrArg Prod.snd h)
                  exact ⟨_, by rw [← hpb]; exact heq⟩
    · simp only [Bool.not_eq_true] at hv
      rw [hv] at h
      simp only [Bool.false_eq_true, if_false] at h
      exact Except.noConfusion (congrArg Prod.snd h)
  · intro store st' id now pb h
    unfold MarkAsLost at h
    by_cases hv : isValidObjectIdHex id
    · rw [hv] at h
      simp only [if_true] at h
      unfold findAndUpdateOperation at h
      rcases hf : findOperation store id with _ | op2
      · rw [hf] at h
        exact Except.noConfusion (congrArg Prod.snd h)
      · rw [hf] at h
        dsimp only at h
        split at h
        next e2 heq => exact Except.noConfusion (congrArg Prod.snd h)
        next pb2 heq =>
          have hpb : pb2 = pb := (Except.ok.injEq _ _).mp (congrArg Prod.snd h)
          exact ⟨_, by rw [← hpb]; exact heq⟩
    · simp only [Bool.not_eq_true] at hv
      rw [hv] at h
      simp only [Bool.false_eq_true, if_false] at h
      exact Except.noConfusion (congrArg Prod.snd h)
  · intro store st' req now code newId res h
    unfold ServiceRegisterOperation RegisterOperation at h
    by_cases hdup : (findOperation store newId).isSome
    · rw [if_pos hdup] at h
      exact Except.noConfusion (congrArg Prod.snd h)
    · rw [if_neg hdup] at h
      dsimp only at h
      split at h
      next e2 heq => exact Except.noConfusion (congrArg Prod.snd h)
      next op heq =>
        have : (op, code) = res := (Except.ok.injEq _ _).mp (congrArg Prod.snd h)
        exact (congrArg Prod.snd this).symm ▸ rfl

/-- C8 witness: the snapshots of a concrete successful Update, Complete
and MarkAsLost are projections of stored records, and a concrete
register response carries exactly the generated token. -/
theorem c8_snapshots_never_carry_token_witness :
    (∃ o : Operation, o.ToProto = .ok
      { UniqueId := idA, CreateTime := 10, Owner := "o", Creator := "c", State := .PENDING,
        Ttl := 100, GracePeriod := 5, Description := "d", LastUpdate := 99,
        Annotations := [("a", "b")], Kind := "k", StatusMessage := "", PercentDone := 0,
        Parameters := [], Result := none })
    ∧ (∃ o : Operation, o.ToProto = .ok
      { UniqueId := idA, CreateTime := 10, Owner := "o", Creator := "c", State := .COMPLETE,
        Ttl := 100, GracePeriod := 5, Description := "d", LastUpdate := 99,
        Annotations := [("a", "b")], Kind := "k", StatusMessage := "", PercentDone := 0,
        Parameters := [], Result := some (.success { Message := "done", Result := none }) })
    ∧ (∃ o : Operation, o.ToProto = .ok
      { UniqueId := idA, CreateTime := 10, Owner := "o", Creator := "c", State := .LOST,
        Ttl := 100, GracePeriod := 5, Description := "d", LastUpdate := 99,
        Annotations := [("a", "b")], Kind := "k", StatusMessage := "", PercentDone := 0,
        Parameters := [], Result := none })
    ∧ (({ UniqueId := idA, CreateTime := 10, Owner := "o", Creator := "c", State := .RUNNING,
          Ttl := 100, GracePeriod := 5, Description := "d", LastUpdate := 10,
          Annotations := [("a", "b")], Kind := "k", StatusMessage := "", PercentDone := 0,
          Parameters := [], Result := none } : OperationProto), "sec").2 = "sec" :=
  ⟨c8_snapshots_never_carry_token.2.2.2.1 [opRunning]
     [{ opRunning with State := .PENDING, LastUpdate := 99 }]
     { UniqueId := idA, AuthToken := "tok", Running := false,
       Annotations := [], UpdateMask := ["running"] } 99
     { UniqueId := idA, CreateTime := 10, Owner := "o", Creator := "c", State := .PENDING,
       Ttl := 100, GracePeriod := 5, Description := "d", LastUpdate := 99,
       Annotations := [("a", "b")], Kind := "k", StatusMessage := "", PercentDone := 0,
       Parameters := [], Result := none } rfl,
   c8_snapshots_never_carry_token.2.2.2.2.1 [opRunning]
     [{ opRunning with
          State := .COMPLETE,
          LastUpdate := 99,
          Success := some { Message := "done", Result := none } }]
     { UniqueId := idA, AuthToken := "tok",
       Result := some (.success { Message := "done", Result := none }) } 99
     { UniqueId := idA, CreateTime := 10, Owner := "o", Creator := "c", State := .COMPLETE,
       Ttl := 100, GracePeriod := 5, Description := "d", LastUpdate := 99,
       Annotations := [("a", "b")], Kind := "k", StatusMessage := "", PercentDone := 0,
       Parameters := [], Result := some (.success { Message := "done", Result := none }) } rfl,
   c8_snapshots_never_carry_token.2.2.2.2.2.1 [opRunning]
     [{ opRunning with State := .LOST, LastUpdate := 99 }] idA 99
     { UniqueId := idA, CreateTime := 10, Owner := "o", Creator := "c", State := .LOST,
       Ttl := 100, GracePeriod := 5, Description := "d", LastUpdate := 99,
       Annotations := [("a", "b")], Kind := "k", StatusMessage := "", PercentDone := 0,
       Parameters := [], Result := none } rfl,
   c8_snapshots_never_carry_token.2.2.2.2.2.2 []
     [{ opRunning with CreateTime := 10, LastUpdate := 10, AuthToken := "sec" }]
     { Owner := "o", Creator := "c", InitialState := .RUNNING,
       Ttl := some 100, GracePeriod := some 5, Description := "d", Kind := "k",
       Parameters := [], Annotations := [("a", "b")] } 10 "sec" idA
     ({ UniqueId := idA, CreateTime := 10, Owner := "o", Creator := "c", State := .RUNNING,
        Ttl := 100, GracePeriod := 5, Description := "d", LastUpdate := 10,
        Annotations := [("a", "b")], Kind := "k", StatusMessage := "", PercentDone := 0,
        Parameters := [], Result := none }, "sec") rfl⟩

end LongRunning
